import Mathlib

/-!
Verification development for the strands-verifier repository.

The development shallowly embeds the document-verification pipeline:
`src/orchestrator.py` (`DocumentVerificationOrchestrator.verify_document`,
`load_target_document`, `load_source_documents`), the four stage invokers
under `src/agents/`, and the CLI guards in `main.py`.

Modelling conventions:
- External model invocations (Bedrock calls), prompt rendering and agent
  construction are opaque collaborators; their outcomes (a structured value,
  a free-text string, or a raised exception) are supplied by an environment
  record, and the embedded code is a pure function of that environment.
- Python exceptions are `Except String`; a raised exception is `.error msg`.
- Python `float(s)` is modelled faithfully as correctly rounded
  decimal-to-binary64 conversion (round-half-even, overflow to infinity,
  subnormals, `inf`/`infinity`/`nan` spellings, underscores between
  digits), in pure integer arithmetic; JSON float values (`jNum`) are
  carried as `ℚ`.
- JSON values decoded by `json.loads` are the inductive `JVal`.
- File writes are recorded in an ordered write list instead of hitting a
  filesystem; wall-clock times and timestamps come from the environment.
-/

namespace SV

/-- JSON value as produced by Python `json.loads`: object, array, string,
int, float, bool or null. A decoded float is a binary64 value: `jNum q`
carries the exact rational value of a finite double (every finite binary64
value is an exact rational), and `json.loads` also accepts the
non-standard literals `Infinity`, `-Infinity` and `NaN`, decoded as
`jInf`/`jNaN`. -/
inductive JVal where
  | jNull : JVal
  | jBool (b : Bool) : JVal
  | jInt (n : Int) : JVal
  | jNum (q : ℚ) : JVal
  | jInf (neg : Bool) : JVal
  | jNaN : JVal
  | jStr (s : String) : JVal
  | jArr (xs : List JVal) : JVal
  | jObj (fields : List (String × JVal)) : JVal

/-- Python `dict` lookup on an insertion-ordered association list with
string keys. -/
def dictLookup {α : Type} : List (String × α) → String → Option α
  | [], _ => none
  | (a, b) :: rest, k => if k = a then some b else dictLookup rest k

/-- Python `dict.get(key, default)` on a JSON object's field list (for the
hashable string keys used by the orchestrator). -/
def objGet (fields : List (String × JVal)) (k : String) (d : JVal) : JVal :=
  match dictLookup fields k with
  | some v => v
  | none => d

/-- A value is unhashable in Python iff it is a `list` or a `dict`.
Using such a value as a `dict` key (even via `dict.get`) raises `TypeError`. -/
def JVal.isUnhashable : JVal → Bool
  | .jArr _ => true
  | .jObj _ => true
  | _ => false

/-- `isinstance(v, dict)` for a decoded JSON value. -/
def JVal.isObj : JVal → Bool
  | .jObj _ => true
  | _ => false

/-- Python `int()` truncation toward zero of a finite float value. -/
def pyTrunc (q : ℚ) : Int :=
  if 0 ≤ q then ⌊q⌋ else ⌈q⌉

/-- Python's `round(x, 2)`, modelled on exact rationals as round-half-up to
two decimal places (Python uses banker's rounding on binary-float ties; no
claim in this development depends on tie behaviour). -/
def round2 (q : ℚ) : ℚ :=
  (⌊q * 100 + 1 / 2⌋ : ℚ) / 100

/-- Digit list to natural number, most significant first. -/
def digitsToNat (ds : List Char) : Nat :=
  ds.foldl (fun a c => a * 10 + (c.toNat - 48)) 0

/-- Nonempty all-digit character list, or failure. -/
def parseDigits (cs : List Char) : Option Nat :=
  if cs ≠ [] ∧ cs.all Char.isDigit then some (digitsToNat cs) else none

/-- Leading sign of a numeric literal: returns (isNegative, rest). -/
def parseSign : List Char → Bool × List Char
  | '-' :: r => (true, r)
  | '+' :: r => (false, r)
  | cs => (false, cs)

/-- Splits at the first character satisfying `p`, dropping that character;
`none` as second component when no such character occurs. -/
def splitOnChar (p : Char → Bool) (cs : List Char) : List Char × Option (List Char) :=
  match cs.span (fun c => ! p c) with
  | (before, []) => (before, none)
  | (before, _ :: rest) => (before, some rest)

/-- Mantissa of a decimal literal as an integer scaled by a power of ten:
`digits`, `digits.digits`, `digits.` or `.digits` (at least one digit
overall) parse to `(M, E)` with value `M * 10^E`. -/
def parseMantissaScaled (cs : List Char) : Option (Nat × Int) :=
  match splitOnChar (fun c => c = '.') cs with
  | (ip, none) => (parseDigits ip).map (fun n => (n, (0 : Int)))
  | (ip, some fp) =>
      if ip.all Char.isDigit ∧ fp.all Char.isDigit ∧ (ip ≠ [] ∨ fp ≠ []) then
        some (digitsToNat ip * 10 ^ fp.length + digitsToNat fp, -(fp.length : Int))
      else
        none

/-- Signed decimal exponent part after `e`/`E`. -/
def parseExponent (cs : List Char) : Option Int :=
  let (neg, rest) := parseSign cs
  (parseDigits rest).map (fun n => if neg then -(n : Int) else (n : Int))

/-- ASCII whitespace stripped by Python `float(s)`. -/
def isSpaceChar (c : Char) : Bool :=
  c = ' ' || c = '\t' || c = '\n' || c = '\r' || c = Char.ofNat 11 || c = Char.ofNat 12

/-- Strips whitespace from both ends of a character list. -/
def trimChars (cs : List Char) : List Char :=
  ((cs.dropWhile isSpaceChar).reverse.dropWhile isSpaceChar).reverse

/-- CPython accepts single underscores in numeric literals only when
flanked by digits on both sides; the first argument carries the previous
character. -/
def underscoresOk : Option Char → List Char → Bool
  | _, [] => true
  | prev, c :: rest =>
      if c = '_' then
        match prev, rest with
        | some p, r :: _ => p.isDigit && r.isDigit && underscoresOk (some c) rest
        | _, _ => false
      else underscoresOk (some c) rest

/-- Bit length of a natural number (`0` for `0`), by fuelled structural
recursion so it reduces in the kernel. -/
def bitlenAux : Nat → Nat → Nat
  | 0, _ => 0
  | f + 1, n => if n = 0 then 0 else bitlenAux f (n / 2) + 1

def bitlen (n : Nat) : Nat := bitlenAux n n

/-- Whether the positive fraction `A / B` is strictly below `2^e`, in pure
integer arithmetic. -/
def ltPow2 (A B : Nat) (e : Int) : Bool :=
  if 0 ≤ e then A < 2 ^ e.toNat * B else A * 2 ^ (-e).toNat < B

/-- Integer nearest rounding (ties to even) of the positive fraction
`A / (B * 2^s)`. -/
def roundQuotient (A B : Nat) (s : Int) : Nat :=
  let num := if 0 ≤ s then A else A * 2 ^ (-s).toNat
  let den := if 0 ≤ s then B * 2 ^ s.toNat else B
  let q := num / den
  let r := num % den
  if 2 * r < den then q
  else if den < 2 * r then q + 1
  else if q % 2 = 0 then q else q + 1

/-- Correctly rounded decimal-to-binary64 conversion — the conversion
CPython's `float(s)` performs on a decimal literal: the magnitude
`M * 10^E` is rounded to the nearest IEEE-754 double (ties to even), with
subnormal quantum `2^-1074`, and any result of at least `2^1024` overflows
to infinity (`none`). A finite result is `(n, s)` with value `n * 2^s`. -/
def roundDouble (M : Nat) (E : Int) : Option (Nat × Int) :=
  if M = 0 then some (0, 0)
  else
    let A := if 0 ≤ E then M * 10 ^ E.toNat else M
    let B := if 0 ≤ E then 1 else 10 ^ (-E).toNat
    let e0 : Int := (bitlen A : Int) - (bitlen B : Int)
    let e : Int := if ltPow2 A B e0 then e0 - 1 else e0
    let s : Int := if e < -1022 then -1074 else e - 52
    let n := roundQuotient A B s
    if 2 ^ (1024 - s).toNat ≤ n then none else some (n, s)

/-- A value CPython's `float(s)` can produce: a finite binary64 value
`±n * 2^s`, a signed infinity, or nan. -/
inductive PyFloat where
  | finite (neg : Bool) (n : Nat) (s : Int) : PyFloat
  | inf (neg : Bool) : PyFloat
  | nan : PyFloat

/-- Python `float(s)`: optional surrounding ASCII whitespace, optional
sign, then case-insensitively `inf`/`infinity`/`nan`, or a decimal
mantissa with optional `e`/`E` exponent (single underscores allowed
between digits), converted by correct rounding to binary64; decimal
overflow yields an infinity, not an error. `none` models the `ValueError`
raised on any other input. Non-ASCII whitespace is outside the model. -/
def pyFloatOfString (str : String) : Option PyFloat :=
  let cs := trimChars str.data
  let (neg, cs) := parseSign cs
  if underscoresOk none cs then
    let cs := cs.filter (fun c => !(c == '_'))
    let low := cs.map Char.toLower
    if low = "inf".data ∨ low = "infinity".data then some (.inf neg)
    else if low = "nan".data then some .nan
    else
      let (mant, expPart) := splitOnChar (fun c => c = 'e' || c = 'E') cs
      match parseMantissaScaled mant,
          (match expPart with | none => some (0 : Int) | some ecs => parseExponent ecs) with
      | some (M, E0), some e =>
          match roundDouble M (E0 + e) with
          | none => some (.inf neg)
          | some (n, s) => some (.finite neg n s)
      | _, _ => none
  else none

/-- Python `int()` truncation toward zero of the finite binary64 value
`±n * 2^s`, in integer arithmetic. -/
def intOfPyFinite (neg : Bool) (n : Nat) (s : Int) : Int :=
  let t : Int := if 0 ≤ s then ((n * 2 ^ s.toNat : Nat) : Int) else ((n / 2 ^ (-s).toNat : Nat) : Int)
  if neg then -t else t

/-- Confidence coercion from `verify_document` (orchestrator.py lines
300-309): a numeric value is truncated with `int(...)` (Python `bool` is
an `int` subclass, so it counts as numeric) — this call is not inside any
`try`, so a decoded float infinity raises `OverflowError` and a decoded
nan raises `ValueError`, both aborting the run; a string goes through
`int(float(...))` inside `except (ValueError, TypeError)`, so an
unparseable string (`ValueError` from `float`) or a nan-string
(`ValueError` from `int`) defaults to 0, while a string parsing to an
infinity (such as "inf" or "1e309") makes `int` raise `OverflowError`,
which that `except` clause does NOT catch — the exception propagates and
aborts the whole run; every other value defaults to 0. -/
def coerceConfidence : JVal → Except String Int
  | .jInt n => .ok n
  | .jNum q => .ok (pyTrunc q)
  | .jInf _ => .error "OverflowError: cannot convert float infinity to integer"
  | .jNaN => .error "ValueError: cannot convert float NaN to integer"
  | .jBool b => .ok (if b then 1 else 0)
  | .jStr str =>
      match pyFloatOfString str with
      | some (.finite neg n s) => .ok (intOfPyFinite neg n s)
      | some (.inf _) => .error "OverflowError: cannot convert float infinity to integer"
      | some .nan => .ok 0
      | none => .ok 0
  | _ => .ok 0

/-- `f"{n:02d}"` for a nonnegative value, as used for block ids. -/
def pad2 (n : Nat) : String :=
  if n < 10 then "0" ++ toString n else toString n

/-! ## Schema types (src/agents/*.py pydantic models)

Each stage invoker enforces its output schema through a pydantic model
before `json.dumps`-ing it, so values of these structures are exactly the
shapes a successful structured-output call can hand to the orchestrator. -/

/-- `TargetLocator` (claim_extractor.py). -/
structure TargetLocator where
  page : Int
  span : String

/-- `ExtractedClaim` (claim_extractor.py): every field is required by the
pydantic schema, so a claim decoded from a successful extraction always has
all four fields present. -/
structure RawClaim where
  claim_id : String
  claim_text : String
  target_locator : TargetLocator
  category : String

/-- `EvidenceLocation` (evidence_retriever.py). -/
structure EvidenceLoc where
  page : Int
  span : String

/-- `Evidence` (evidence_retriever.py). -/
structure EvidenceV where
  doc_id : String
  evidence_text : String
  location : EvidenceLoc
  relevance_score : ℚ
  relationship : String

/-- `Citation` (citation_builder.py). -/
structure CitationV where
  docId : String
  version : Int
  page : Int
  span : String
  note : Option String

/-- `DecisionJudgmentResult` (decision_judge.py). The pydantic schema
constrains `confidence` with `ge=0, le=100`; `verdict` is an unconstrained
`str` (its enum is stated only in the field description). -/
structure Judgment where
  verdict : String
  confidence : Int
  rationale : String
  supporting_evidence : List String
  contradicting_evidence : List String

/-! ## Stage invoker boundary

A stage invoker wraps one external structured-output call in
`try/except Exception`, returning `json.dumps` of the schema value on
success and `json.dumps({"error": ...})` on any exception
(claim_extractor.py, evidence_retriever.py, citation_builder.py). The
orchestrator then `json.loads` the returned string; since both shapes are
produced by `json.dumps`, decoding always succeeds and yields one of the
two payloads below. -/

/-- Decoded result of a stage invoker: the proper payload, or the tagged
`{"error": msg}` payload produced by its `except` clause. -/
inductive StageResult (α : Type) where
  | payload (xs : α) : StageResult α
  | errorPayload (msg : String) : StageResult α

/-- `ClaimExtractorAgent.extract_claims`: the structured-output outcome is
either the extracted claim list or a raised exception, mapped to the
tagged error payload `{"error": f"Claim extraction failed: {e}"}`. -/
def extract_claims (outcome : Except String (List RawClaim)) : StageResult (List RawClaim) :=
  match outcome with
  | .ok cs => .payload cs
  | .error e => .errorPayload ("Claim extraction failed: " ++ e)

/-- `EvidenceRetrieverAgent.retrieve_evidence`, same boundary shape (the
caching split for large source texts only changes how the request is sent,
not the returned payload). -/
def retrieve_evidence (outcome : Except String (List EvidenceV)) : StageResult (List EvidenceV) :=
  match outcome with
  | .ok xs => .payload xs
  | .error e => .errorPayload ("Evidence retrieval failed: " ++ e)

/-- `CitationBuilderAgent.build_citations`, same boundary shape. -/
def build_citations (outcome : Except String (List CitationV)) : StageResult (List CitationV) :=
  match outcome with
  | .ok xs => .payload xs
  | .error e => .errorPayload ("Citation building failed: " ++ e)

/-- `claims_data.get('claims', [])` (orchestrator.py lines 239/251): the
error payload carries no `claims` key, so the defaulted read yields `[]`. -/
def getClaims : StageResult (List RawClaim) → List RawClaim
  | .payload cs => cs
  | .errorPayload _ => []

/-- `evidence_data.get('evidence', [])` (orchestrator.py line 262). -/
def getEvidence : StageResult (List EvidenceV) → List EvidenceV
  | .payload xs => xs
  | .errorPayload _ => []

/-- `citation_data.get('citations', [])` (orchestrator.py lines 288/317). -/
def getCitations : StageResult (List CitationV) → List CitationV
  | .payload xs => xs
  | .errorPayload _ => []

/-! ## Decision judge invoker (decision_judge.py, judge_claim) -/

def lbrace : Char := Char.ofNat 123

def rbrace : Char := Char.ofNat 125

/-- Index of the last occurrence of `c`, if any. -/
def lastIdxOf (c : Char) (cs : List Char) : Option Nat :=
  match cs.reverse.findIdx? (fun x => x == c) with
  | none => none
  | some k => some (cs.length - 1 - k)

/-- `re.search(r'\x7b.*\x7d', response_text, re.DOTALL)` followed by
`.group(0)`: with a greedy `.*` spanning newlines, the match (when one
exists) runs from the first opening brace to the last closing brace after
it; since the last closing brace overall is the greedy endpoint, the match
is the segment from the first opening brace to the last closing brace of
the whole string, provided the latter comes later. -/
def extractBraced (s : String) : Option String :=
  let cs := s.data
  match cs.findIdx? (fun x => x == lbrace), lastIdxOf rbrace cs with
  | some i, some j =>
      if i < j then some (String.mk ((cs.drop i).take (j - i + 1))) else none
  | _, _ => none

/-- `json.dumps(result.model_dump())` field order for a structured
judgment. -/
def judgmentFields (j : Judgment) : List (String × JVal) :=
  [("verdict", .jStr j.verdict),
   ("confidence", .jInt j.confidence),
   ("rationale", .jStr j.rationale),
   ("supporting_evidence", .jArr (j.supporting_evidence.map .jStr)),
   ("contradicting_evidence", .jArr (j.contradicting_evidence.map .jStr))]

/-- The canonical fallback judgment object built when the free-text
response contains no recoverable JSON object (decision_judge.py lines
90-97). -/
def fallbackJudgment (diag : String) : List (String × JVal) :=
  [("verdict", .jStr "NOT_FOUND"),
   ("confidence", .jInt 0),
   ("rationale", .jStr diag),
   ("supporting_evidence", .jArr []),
   ("contradicting_evidence", .jArr [])]

/-- Outcomes of the external operations `judge_claim` performs, in program
order: agent construction / prompt rendering, the structured-output call,
and the fallback free-text call. `.error` means the operation raised. -/
structure JudgeEnv where
  setup : Except String Unit
  structured : Except String Judgment
  freeText : Except String String

/-- What `judge_claim` returns: `json.dumps` of an object (always valid
JSON), or the raw regex-extracted substring of the free-text response,
which need not be valid JSON. -/
inductive JudgeOutput where
  | val (fields : List (String × JVal)) : JudgeOutput
  | raw (s : String) : JudgeOutput

/-- `DecisionJudgeAgent.judge_claim` (decision_judge.py lines 47-111).
The outer `except Exception` turns any raised exception into the tagged
error payload, so the function returns on every environment. The inner
bare `except` around the regex extraction guards operations that are total
in this model (`re.search`, `json.dumps`), so its canonical fallback with a
`Complete parsing failure` rationale is unreachable here. -/
def judge_claim (env : JudgeEnv) : JudgeOutput :=
  match env.setup with
  | .error e => .val [("error", .jStr ("Decision judgment failed: " ++ e))]
  | .ok _ =>
    match env.structured with
    | .ok j => .val (judgmentFields j)
    | .error _ =>
      match env.freeText with
      | .error e2 => .val [("error", .jStr ("Decision judgment failed: " ++ e2))]
      | .ok resp =>
        match extractBraced resp with
        | some m => .raw m
        | none =>
            .val (fallbackJudgment ("Failed to parse structured output: " ++ resp.take 200))

/-! ## Verification pipeline (orchestrator.py, verify_document)

The per-claim judgment value is the result of `json.loads` on the string
`judge_claim` returned. The value-returning branches of `judge_claim`
always decode to their object, but the `.raw` branch returns an arbitrary
substring of free text, so decoding it can either succeed with some JSON
object (raw text starting with an opening brace and ending with a closing
brace decodes to an object when it decodes at all) or raise
`json.JSONDecodeError`; the environment supplies that outcome per claim
index. -/

/-- The in-memory `verified_claim` dict (orchestrator.py lines 312-318):
the extracted claim's fields plus verdict, confidence, rationale and
citations. Verdict and rationale stay dynamic JSON values because the code
never restricts them to strings. -/
structure VClaim where
  claim_id : String
  claim_text : String
  target_locator : TargetLocator
  category : String
  verdict : JVal
  confidence : Int
  rationale : JVal
  citations : List CitationV

/-- The report-shape claim (orchestrator.py lines 360-375); `priority`,
`dependencies` and `status` are the constants `"high"`, `[]`,
`"completed"`. -/
structure FinalClaim where
  claim_id : String
  title : String
  description : String
  claimText : String
  targetLocator : TargetLocator
  verdict : JVal
  confidence : Int
  rationale : JVal
  citations : List CitationV
  priority : String
  dependencies : List String
  status : String

/-- A category block (orchestrator.py lines 349-357); `pageRange` is the
constant `[1, 50]`. -/
structure Block where
  block_id : String
  title : String
  description : String
  pageRangeLo : Int
  pageRangeHi : Int
  priority : String
  status : String
  claims : List FinalClaim

/-- Source-document entry of `details.sourceDocuments` (lines 384-387). -/
structure SourceDocMeta where
  docId : String
  version : Int
  kind : String

/-- The audit record (lines 393-398). -/
structure Audit where
  createdBy : String
  createdAt : String
  reviewStage : String
  notes : String

/-- The performance record (lines 410-415). -/
structure Performance where
  total_time_seconds : ℚ
  claims_processed : Nat
  avg_time_per_claim : ℚ
  caching_enabled : Bool

/-- The top-level `result_data` report (lines 379-399, 410-415). -/
structure Report where
  document_id : String
  title : String
  description : String
  sourceDocuments : List SourceDocMeta
  priority : String
  dependencies : List String
  status : String
  blocks : List Block
  audit : Audit
  performance : Performance

/-- The error record written on failure (lines 459-463): exactly these
three fields. -/
structure ErrorRecord where
  document_id : String
  error : String
  timestamp : String

/-- A document handed to `save_json_result`. -/
inductive WriteDoc where
  | report (r : Report) : WriteDoc
  | errorRec (e : ErrorRecord) : WriteDoc

/-- Result of one `verify_document` run: the returned path and the ordered
list of files written (path, content). -/
structure RunOutcome where
  path : String
  writes : List (String × WriteDoc)

/-- Environment of one run: configuration, discovered documents, wall-clock
data, and the outcome of every external model invocation. Per-claim stages
are indexed by the claim's position in the extracted list. -/
structure PipelineEnv where
  sessionId : String
  resultsDir : String
  sourceDirName : String
  targetDirName : String
  targetFiles : List String
  targetContent : String
  sourceDocs : List (String × String)
  cachingEnabled : Bool
  elapsed : ℚ
  now : String
  extractor : Except String (List RawClaim)
  evidenceFor : Nat → Except String (List EvidenceV)
  judge : Nat → Except String (List (String × JVal))
  citationsFor : Nat → Except String (List CitationV)

/-- `load_target_document` (lines 142-156): raises `FileNotFoundError`
when the target directory holds no TXT file, otherwise reads the first
glob-discovered file. -/
def load_target_document (env : PipelineEnv) : Except String String :=
  match env.targetFiles with
  | [] => .error "No TXT files found in target directory"
  | f :: _ => .ok f

/-- `load_source_documents` (lines 128-140): reads every TXT file of the
source directory into a dict; an empty directory yields an empty dict and
is not an error. -/
def load_source_documents (env : PipelineEnv) : List (String × String) :=
  env.sourceDocs

/-- `f"Claim: {claim_text[:50]}..."` plus the rest of the final claim shape
(lines 360-375). -/
def toFinalClaim (v : VClaim) : FinalClaim :=
  { claim_id := v.claim_id
    title := "Claim: " ++ v.claim_text.take 50 ++ "..."
    description := v.claim_text
    claimText := v.claim_text
    targetLocator := v.target_locator
    verdict := v.verdict
    confidence := v.confidence
    rationale := v.rationale
    citations := v.citations
    priority := "high"
    dependencies := []
    status := "completed" }

/-- A freshly created block for a first-seen category, when `n` blocks
already exist (lines 349-357). -/
def freshBlock (cat : String) (n : Nat) : Block :=
  { block_id := "block-" ++ pad2 (n + 1)
    title := "Block: " ++ cat
    description := "Claims related to " ++ cat.toLower
    pageRangeLo := 1
    pageRangeHi := 50
    priority := "high"
    status := "completed"
    claims := [] }

/-- In-place update `blocks[category]["claims"].append(final_claim)` on the
association list representing the insertion-ordered `blocks` dict. -/
def updClaims (cat : String) (fc : FinalClaim) (p : String × Block) : String × Block :=
  if p.1 = cat then (p.1, { p.2 with claims := p.2.claims ++ [fc] }) else p

/-- One iteration of the grouping loop (lines 346-376): create the
category's block lazily at the end of the dict, then append the claim's
final shape to its block. -/
def addClaim (acc : List (String × Block)) (v : VClaim) : List (String × Block) :=
  let acc1 :=
    if (dictLookup acc v.category).isSome then acc
    else acc ++ [(v.category, freshBlock v.category acc.length)]
  acc1.map (updClaims v.category (toFinalClaim v))

/-- The whole grouping loop over the verified claims, in processing
order. -/
def buildBlocks (vs : List VClaim) : List (String × Block) :=
  vs.foldl addClaim []

/-- Lines 292-318 with the judgment object in hand: read verdict,
confidence and rationale with defaults, apply the dict-coercion of line
297 and the confidence coercion, and assemble the verified claim. -/
def assembleVClaim (c : RawClaim) (jd : List (String × JVal)) (cits : List CitationV)
    (confidence : Int) : VClaim :=
  let verdict0 := objGet jd "verdict" (.jStr "NOT_FOUND")
  { claim_id := c.claim_id
    claim_text := c.claim_text
    target_locator := c.target_locator
    category := c.category
    verdict := if verdict0.isObj then .jStr "NOT_FOUND" else verdict0
    confidence := confidence
    rationale := objGet jd "rationale" (.jStr "No rationale provided")
    citations := cits }

/-- One claim's per-claim processing (lines 258-319). In program order:
the evidence stage is invoked and its list read with a defaulted lookup
(display only); the judge stage's returned string is decoded, propagating
a decode exception; the interim verdict is used as a key of the
verdict-colour dict literal (lines 272-277), which raises `TypeError` when
the verdict is unhashable (a decoded `list` or `dict`) — note this happens
before the dict-coercion of line 297 ever runs; the citation stage result
is read with a defaulted lookup; the confidence is coerced, which
propagates the uncaught `OverflowError` of an infinite string confidence;
finally the verified claim is assembled. -/
def processClaim (evOut : Except String (List EvidenceV))
    (judgeOut : Except String (List (String × JVal)))
    (citOut : Except String (List CitationV)) (c : RawClaim) :
    Except String VClaim :=
  let _evidenceCount := (getEvidence (retrieve_evidence evOut)).length
  match judgeOut with
  | .error e => .error e
  | .ok jd =>
      if (objGet jd "verdict" (.jStr "NOT_FOUND")).isUnhashable then
        .error "TypeError: unhashable type"
      else
        match coerceConfidence (objGet jd "confidence" (.jInt 0)) with
        | .error e => .error e
        | .ok conf => .ok (assembleVClaim c jd (getCitations (build_citations citOut)) conf)

/-- The sequential per-claim loop (line 251), indexing each claim by its
position. -/
def processClaims (env : PipelineEnv) : Nat → List RawClaim → Except String (List VClaim)
  | _, [] => .ok []
  | i, c :: rest =>
      match processClaim (env.evidenceFor i) (env.judge i) (env.citationsFor i) c with
      | .error e => .error e
      | .ok v =>
          match processClaims env (i + 1) rest with
          | .error e => .error e
          | .ok vs => .ok (v :: vs)

/-- `f"{results_dir}/{session_id}.json"` (line 403). -/
def reportPath (env : PipelineEnv) : String :=
  env.resultsDir ++ "/" ++ env.sessionId ++ ".json"

/-- `f"{results_dir}/{session_id}_error.json"` (line 464). -/
def errorPath (env : PipelineEnv) : String :=
  env.resultsDir ++ "/" ++ env.sessionId ++ "_error.json"

/-- The body of the big `try` block of `verify_document` (lines 181-445):
load documents, extract claims, process each claim, group into blocks and
assemble the report with its audit and performance records. Any modelled
exception propagates out to the handler. -/
def runPipeline (env : PipelineEnv) : Except String Report :=
  match load_target_document env with
  | .error e => .error e
  | .ok targetFile =>
  let sources := load_source_documents env
  let claims := getClaims (extract_claims env.extractor)
  match processClaims env 0 claims with
  | .error e => .error e
  | .ok verified =>
    .ok
    { document_id := env.sessionId
      title := targetFile ++ " Verification vs Sources"
      description := "Target: " ++ targetFile ++ " is verified against source documents"
      sourceDocuments := sources.map (fun p => { docId := p.1, version := 1, kind := "source_document" })
      priority := "high"
      dependencies := []
      status := "completed"
      blocks := (buildBlocks verified).map (fun p => p.2)
      audit :=
        { createdBy := "strands-verifier"
          createdAt := env.now
          reviewStage := "automated"
          notes := "Automated verification using multi-agent analysis" }
      performance :=
        { total_time_seconds := round2 env.elapsed
          claims_processed := verified.length
          avg_time_per_claim := round2 (env.elapsed / ((max verified.length 1 : Nat) : ℚ))
          caching_enabled := env.cachingEnabled } }

/-- `verify_document` (lines 158-466): on success the report is saved at
the session path and that path returned; the `except Exception` handler
(lines 447-466) writes the three-field error record at the `_error` path
and returns that path instead. -/
def verifyDocument (env : PipelineEnv) : RunOutcome :=
  match runPipeline env with
  | .ok r =>
      { path := reportPath env
        writes := [(reportPath env, .report r)] }
  | .error e =>
      { path := errorPath env
        writes := [(errorPath env,
          .errorRec { document_id := env.sessionId, error := e, timestamp := env.now })] }

/-! ## CLI entry point (main.py, verify) -/

/-- Outcome of the `verify` CLI command: `aborted` models
`click.ClickException` → `click.Abort` (no file written), `finished` wraps
the orchestrator run. -/
inductive CliResult where
  | aborted (msg : String) : CliResult
  | finished (out : RunOutcome) : CliResult

/-- `main.py verify` (lines 72-103): before the pipeline starts, an empty
source file set and then an empty target file set each raise a
`ClickException`; otherwise the orchestrator runs. -/
def mainVerify (env : PipelineEnv) : CliResult :=
  if env.sourceDocs = [] then
    .aborted ("No TXT files found in source directory '" ++ env.sourceDirName ++ "'")
  else if env.targetFiles = [] then
    .aborted ("No TXT files found in target directory '" ++ env.targetDirName ++ "'")
  else
    .finished (verifyDocument env)

/-- Files persisted by the CLI run. -/
def cliWrites : CliResult → List (String × WriteDoc)
  | .aborted _ => []
  | .finished o => o.writes

/-! ## Projections used in theorem statements -/

/-- Reports among a run's writes. -/
def runReports (o : RunOutcome) : List Report :=
  o.writes.filterMap (fun w => match w.2 with | .report r => some r | _ => none)

/-- Error records among a run's writes. -/
def runErrors (o : RunOutcome) : List ErrorRecord :=
  o.writes.filterMap (fun w => match w.2 with | .errorRec e => some e | _ => none)

/-- Category keys of the block dict, in insertion order. -/
def keysOf (l : List (String × Block)) : List String := l.map Prod.fst

/-- Block ids of the block dict, in insertion order. -/
def blockIds (l : List (String × Block)) : List String := l.map (fun p => p.2.block_id)

/-- Claims of the block keyed by a category (empty when absent). -/
def claimsOf (l : List (String × Block)) (cat : String) : List FinalClaim :=
  match dictLookup l cat with
  | some b => b.claims
  | none => []

/-- First-seen-order deduplication of a category sequence. -/
def seenFold (acc : List String) (c : String) : List String :=
  if c ∈ acc then acc else acc ++ [c]

def firstSeenCats (cats : List String) : List String :=
  cats.foldl seenFold []

theorem dictLookup_cons {α : Type} (a : String) (b : α) (rest : List (String × α))
    (k : String) :
    dictLookup ((a, b) :: rest) k = if k = a then some b else dictLookup rest k := rfl

theorem updClaims_fst (cat : String) (fc : FinalClaim) (p : String × Block) :
    (updClaims cat fc p).1 = p.1 := by
  unfold updClaims; split <;> rfl

theorem updClaims_block_id (cat : String) (fc : FinalClaim) (p : String × Block) :
    (updClaims cat fc p).2.block_id = p.2.block_id := by
  unfold updClaims; split <;> rfl

theorem dictLookup_isSome_iff {α : Type} (l : List (String × α)) (k : String) :
    (dictLookup l k).isSome = true ↔ k ∈ l.map Prod.fst := by
  induction l with
  | nil => simp [dictLookup]
  | cons p rest ih =>
      obtain ⟨a, b⟩ := p
      by_cases h : k = a
      · subst h; simp [dictLookup]
      · simp [dictLookup, h, ih]

theorem addClaim_keys (acc : List (String × Block)) (v : VClaim) :
    keysOf (addClaim acc v) = seenFold (keysOf acc) v.category := by
  unfold addClaim seenFold
  by_cases h : v.category ∈ keysOf acc
  · have hs : (dictLookup acc v.category).isSome = true := (dictLookup_isSome_iff acc _).mpr h
    simp only [keysOf] at h ⊢
    simp [hs, h, List.map_map, Function.comp_def, updClaims_fst]
  · have hs : ¬(dictLookup acc v.category).isSome = true := fun hc =>
      h ((dictLookup_isSome_iff acc _).mp hc)
    simp only [keysOf] at h ⊢
    simp [hs, h, List.map_map, Function.comp_def, updClaims_fst]

theorem foldl_addClaim_keys (vs : List VClaim) :
    ∀ acc, keysOf (List.foldl addClaim acc vs) =
      List.foldl seenFold (keysOf acc) (vs.map (fun v => v.category)) := by
  induction vs with
  | nil => intro acc; rfl
  | cons v rest ih =>
      intro acc
      simp only [List.foldl, List.map]
      rw [ih (addClaim acc v), addClaim_keys]

theorem addClaim_length (acc : List (String × Block)) (v : VClaim) :
    (addClaim acc v).length =
      if (dictLookup acc v.category).isSome then acc.length else acc.length + 1 := by
  unfold addClaim
  by_cases h : (dictLookup acc v.category).isSome = true <;> simp [h]

theorem addClaim_blockIds (acc : List (String × Block)) (v : VClaim) :
    blockIds (addClaim acc v) =
      if (dictLookup acc v.category).isSome then blockIds acc
      else blockIds acc ++ ["block-" ++ pad2 (acc.length + 1)] := by
  unfold addClaim blockIds
  by_cases h : (dictLookup acc v.category).isSome = true <;>
    simp [h, List.map_map, Function.comp_def, updClaims_block_id, freshBlock]

/-- The block-id invariant: ids are `block-01`, `block-02`, … in positional
order. -/
def idsCanonical (l : List (String × Block)) : Prop :=
  blockIds l = (List.range l.length).map (fun k => "block-" ++ pad2 (k + 1))

theorem addClaim_idsCanonical (acc : List (String × Block)) (v : VClaim)
    (h : idsCanonical acc) : idsCanonical (addClaim acc v) := by
  unfold idsCanonical at h ⊢
  rw [addClaim_blockIds, addClaim_length]
  by_cases hs : (dictLookup acc v.category).isSome = true <;>
    simp [hs, h, List.range_succ]

theorem foldl_addClaim_idsCanonical (vs : List VClaim) :
    ∀ acc, idsCanonical acc → idsCanonical (List.foldl addClaim acc vs) := by
  induction vs with
  | nil => exact fun acc h => h
  | cons v rest ih => exact fun acc h => ih _ (addClaim_idsCanonical acc v h)

theorem updClaims_pair (cat : String) (fc : FinalClaim) (a : String) (b : Block) :
    updClaims cat fc (a, b) =
      (a, if a = cat then { b with claims := b.claims ++ [fc] } else b) := by
  unfold updClaims
  by_cases h : a = cat <;> simp [h]

theorem dictLookup_map_updClaims (l : List (String × Block)) (cat cat' : String)
    (fc : FinalClaim) :
    dictLookup (l.map (updClaims cat fc)) cat' =
      (dictLookup l cat').map
        (fun b => if cat' = cat then { b with claims := b.claims ++ [fc] } else b) := by
  induction l with
  | nil => rfl
  | cons p rest ih =>
      obtain ⟨a, b⟩ := p
      rw [List.map_cons, updClaims_pair, dictLookup_cons, dictLookup_cons]
      by_cases h : cat' = a
      · rw [if_pos h, if_pos h]
        subst h
        by_cases h2 : cat' = cat <;> simp [h2]
      · rw [if_neg h, if_neg h, ih]

theorem dictLookup_append_right {α : Type} (l1 l2 : List (String × α)) (k : String)
    (h : dictLookup l1 k = none) : dictLookup (l1 ++ l2) k = dictLookup l2 k := by
  induction l1 with
  | nil => rfl
  | cons p rest ih =>
      obtain ⟨a, b⟩ := p
      by_cases hk : k = a
      · subst hk; simp [dictLookup] at h
      · simp [dictLookup, hk] at h ⊢
        exact ih h

theorem dictLookup_append_left {α : Type} (l1 l2 : List (String × α)) (k : String) (b : α)
    (h : dictLookup l1 k = some b) : dictLookup (l1 ++ l2) k = some b := by
  induction l1 with
  | nil => simp [dictLookup] at h
  | cons p rest ih =>
      obtain ⟨a, c⟩ := p
      by_cases hk : k = a
      · subst hk
        simp [dictLookup] at h ⊢
        exact h
      · simp [dictLookup, hk] at h ⊢
        exact ih h

theorem addClaim_claimsOf (acc : List (String × Block)) (v : VClaim) (cat' : String) :
    claimsOf (addClaim acc v) cat' =
      claimsOf acc cat' ++ (if cat' = v.category then [toFinalClaim v] else []) := by
  unfold addClaim claimsOf
  cases hs : (dictLookup acc v.category).isSome with
  | true =>
      simp only [hs, if_true, dictLookup_map_updClaims]
      cases hl : dictLookup acc cat' with
      | none =>
          by_cases h2 : cat' = v.category
          · subst h2; rw [hl] at hs; simp at hs
          · simp [hl, h2]
      | some b => by_cases h2 : cat' = v.category <;> simp [hl, h2]
  | false =>
      have hnone : dictLookup acc v.category = none := by
        cases hl : dictLookup acc v.category with
        | none => rfl
        | some b => rw [hl] at hs; simp at hs
      simp only [hs, Bool.false_eq_true, if_false, dictLookup_map_updClaims]
      by_cases h2 : cat' = v.category
      · subst h2
        rw [dictLookup_append_right acc _ _ hnone]
        simp [dictLookup, hnone, freshBlock]
      · cases hl : dictLookup acc cat' with
        | none =>
            rw [dictLookup_append_right acc _ _ hl]
            simp [dictLookup, h2, hl]
        | some b =>
            rw [dictLookup_append_left acc _ _ b hl]
            simp [h2, hl]

theorem foldl_addClaim_claimsOf (cat : String) (vs : List VClaim) :
    ∀ acc, claimsOf (List.foldl addClaim acc vs) cat =
      claimsOf acc cat ++ (vs.filter (fun v => v.category == cat)).map toFinalClaim := by
  induction vs with
  | nil => intro acc; simp
  | cons v rest ih =>
      intro acc
      simp only [List.foldl]
      rw [ih (addClaim acc v), addClaim_claimsOf]
      by_cases h : v.category = cat
      · simp [List.filter_cons, h, List.append_assoc]
      · have h' : ¬cat = v.category := fun hc => h hc.symm
        simp [List.filter_cons, h, h']

/-- C9: the aggregation loop creates one block per distinct category, in
the order each category is first seen in the verified-claim sequence;
block ids are assigned sequentially in that order as block-01, block-02,
…; and each block holds exactly the final shapes of the claims of its own
category, in their original order. -/
theorem blocks_grouped_by_first_seen_category (vs : List VClaim) :
    keysOf (buildBlocks vs) = firstSeenCats (vs.map (fun v => v.category)) ∧
    blockIds (buildBlocks vs) =
      (List.range (buildBlocks vs).length).map (fun k => "block-" ++ pad2 (k + 1)) ∧
    ∀ cat : String, claimsOf (buildBlocks vs) cat =
      (vs.filter (fun v => v.category == cat)).map toFinalClaim := by
  refine ⟨?_, ?_, ?_⟩
  · exact foldl_addClaim_keys vs []
  · exact foldl_addClaim_idsCanonical vs [] rfl
  · intro cat
    have h := foldl_addClaim_claimsOf cat vs []
    simpa [claimsOf, dictLookup] using h

/-- Decidable equality for the coercion's result type, used only to
evaluate it at concrete inputs. -/
instance exceptStringIntDecEq : DecidableEq (Except String Int)
  | .ok a, .ok b =>
      if h : a = b then .isTrue (by rw [h]) else .isFalse (fun hc => h (Except.ok.inj hc))
  | .ok _, .error _ => .isFalse (fun hc => Except.noConfusion hc)
  | .error _, .ok _ => .isFalse (fun hc => Except.noConfusion hc)
  | .error e1, .error e2 =>
      if h : e1 = e2 then .isTrue (by rw [h]) else .isFalse (fun hc => h (Except.error.inj hc))

/-- C4: two-tier fallback of the decision judgment invoker. When the
structured-output call raises and the free-text fallback responds, the
invoker returns the brace-delimited substring when one exists, and
otherwise the canonical fallback judgment — verdict NOT_FOUND, confidence
0, a diagnostic rationale, empty evidence-id lists. The invoker is a total
function of its environment (`judge_claim` returns a payload for every
outcome of the external calls, including raised exceptions), so no
exception escapes its boundary. -/
theorem judge_claim_two_tier_fallback (env : JudgeEnv) (es resp : String)
    (hset : env.setup = .ok ()) (hs : env.structured = .error es)
    (hf : env.freeText = .ok resp) :
    (∀ m, extractBraced resp = some m → judge_claim env = .raw m) ∧
    (extractBraced resp = none →
      judge_claim env =
        .val (fallbackJudgment ("Failed to parse structured output: " ++ resp.take 200)) ∧
      ∀ d : String,
        objGet (fallbackJudgment d) "verdict" .jNull = .jStr "NOT_FOUND" ∧
        objGet (fallbackJudgment d) "confidence" .jNull = .jInt 0 ∧
        objGet (fallbackJudgment d) "rationale" .jNull = .jStr d ∧
        objGet (fallbackJudgment d) "supporting_evidence" .jNull = .jArr [] ∧
        objGet (fallbackJudgment d) "contradicting_evidence" .jNull = .jArr []) := by
  constructor
  · intro m hm
    simp [judge_claim, hset, hs, hf, hm]
  · intro hn
    refine ⟨by simp [judge_claim, hset, hs, hf, hn], ?_⟩
    intro d
    exact ⟨rfl, rfl, rfl, rfl, rfl⟩

def c4Resp : String := "Here is my answer. \x7b\"verdict\": \"SUPPORTED\", \"confidence\": 80\x7d done"

def c4Env : JudgeEnv :=
  { setup := .ok ()
    structured := .error "structured output schema violation"
    freeText := .ok c4Resp }

theorem judge_claim_two_tier_fallback_witness :
    judge_claim c4Env = .raw "\x7b\"verdict\": \"SUPPORTED\", \"confidence\": 80\x7d" :=
  (judge_claim_two_tier_fallback c4Env "structured output schema violation" c4Resp
    rfl rfl rfl).1 _ (by decide)

/-- C6: whenever the run raises (any modelled exception, from any pipeline
state), `verify_document` writes exactly one file — the error record with
exactly the fields document_id, error, timestamp — at
`{results_dir}/{session_id}_error.json`, returns that path, and persists no
verification report: claims processed before the failure do not survive
into any persisted output. -/
theorem failed_run_writes_only_error_record (env : PipelineEnv) (e : String)
    (h : runPipeline env = .error e) :
    verifyDocument env =
      { path := errorPath env
        writes := [(errorPath env,
          .errorRec { document_id := env.sessionId, error := e, timestamp := env.now })] } ∧
    runReports (verifyDocument env) = [] ∧
    errorPath env = env.resultsDir ++ "/" ++ env.sessionId ++ "_error.json" := by
  refine ⟨by simp [verifyDocument, h], ?_, rfl⟩
  simp [verifyDocument, h, runReports]

def c6Env : PipelineEnv :=
  { sessionId := "sess-c6"
    resultsDir := "results"
    sourceDirName := "./source"
    targetDirName := "./target"
    targetFiles := []
    targetContent := ""
    sourceDocs := [("a.txt", "A")]
    cachingEnabled := true
    elapsed := 0
    now := "2026-01-01T00:00:00"
    extractor := .ok []
    evidenceFor := fun _ => .ok []
    judge := fun _ => .ok []
    citationsFor := fun _ => .ok [] }

theorem failed_run_writes_only_error_record_witness :
    verifyDocument c6Env =
      { path := errorPath c6Env
        writes := [(errorPath c6Env,
          .errorRec { document_id := "sess-c6", error := "No TXT files found in target directory",
                      timestamp := "2026-01-01T00:00:00" })] } ∧
    runReports (verifyDocument c6Env) = [] :=
  ⟨(failed_run_writes_only_error_record c6Env "No TXT files found in target directory" rfl).1,
   (failed_run_writes_only_error_record c6Env "No TXT files found in target directory" rfl).2.1⟩

/-- C7: at the CLI entry point, an empty source document set or an empty
target document set makes the run fail fatally before the pipeline starts:
the command aborts and nothing at all is persisted — in particular no
verification report. (The orchestrator's own Init step additionally raises
on an empty target set, `load_target_document`.) -/
theorem empty_document_set_fails_fatally (env : PipelineEnv)
    (h : env.sourceDocs = [] ∨ env.targetFiles = []) :
    (∃ m, mainVerify env = .aborted m) ∧ cliWrites (mainVerify env) = [] := by
  unfold mainVerify
  rcases h with h | h
  · simp [h, cliWrites]
  · by_cases hs : env.sourceDocs = [] <;> simp [h, hs, cliWrites]

def c7Env : PipelineEnv :=
  { c6Env with sessionId := "sess-c7", sourceDocs := [], targetFiles := ["t.txt"] }

theorem empty_document_set_fails_fatally_witness :
    (∃ m, mainVerify c7Env = .aborted m) ∧ cliWrites (mainVerify c7Env) = [] :=
  empty_document_set_fails_fatally c7Env (Or.inl rfl)

/-- C10: `verify_document` is a total function of the run environment — its
single `except Exception` handler means it returns a path to its caller on
every run instead of raising: the report path
`{results_dir}/{session_id}.json` with the report persisted there on
success, or the error path `{results_dir}/{session_id}_error.json` with
the error record persisted there on failure, so the caller distinguishes
the cases only by the returned path. -/
theorem verify_document_always_returns_a_path (env : PipelineEnv) :
    reportPath env = env.resultsDir ++ "/" ++ env.sessionId ++ ".json" ∧
    errorPath env = env.resultsDir ++ "/" ++ env.sessionId ++ "_error.json" ∧
    ((∃ r, runPipeline env = .ok r ∧
        verifyDocument env = { path := reportPath env, writes := [(reportPath env, .report r)] }) ∨
     (∃ e, runPipeline env = .error e ∧
        verifyDocument env =
          { path := errorPath env
            writes := [(errorPath env,
              .errorRec { document_id := env.sessionId, error := e, timestamp := env.now })] })) := by
  refine ⟨rfl, rfl, ?_⟩
  cases h : runPipeline env with
  | ok r => exact .inl ⟨r, rfl, by simp [verifyDocument, h]⟩
  | error e => exact .inr ⟨e, rfl, by simp [verifyDocument, h]⟩

/-- C8: a run that extracts zero claims still persists a report; that
report has zero blocks, `claims_processed = 0`, and an
`avg_time_per_claim` computed with the guarded divisor
`max(claims_processed, 1)`, so it is the (well-defined) rounded elapsed
time rather than a division-by-zero failure. -/
theorem zero_claims_report (env : PipelineEnv) (f : String) (rest : List String)
    (htf : env.targetFiles = f :: rest)
    (hz : getClaims (extract_claims env.extractor) = []) :
    ∃ r, verifyDocument env = { path := reportPath env, writes := [(reportPath env, .report r)] } ∧
      r.blocks = [] ∧
      r.performance.claims_processed = 0 ∧
      r.performance.avg_time_per_claim = round2 (env.elapsed / ((max 0 1 : Nat) : ℚ)) ∧
      r.performance.avg_time_per_claim = round2 env.elapsed := by
  have h1 : load_target_document env = .ok f := by simp [load_target_document, htf]
  cases hrp : runPipeline env with
  | error e => exact absurd hrp (by simp [runPipeline, h1, hz, processClaims])
  | ok r =>
      have hr : r.blocks = [] ∧ r.performance.claims_processed = 0 ∧
          r.performance.avg_time_per_claim = round2 (env.elapsed / ((max 0 1 : Nat) : ℚ)) := by
        simp [runPipeline, h1, hz, processClaims] at hrp
        rw [← hrp]
        refine ⟨by simp [buildBlocks], rfl, ?_⟩
        norm_num
      refine ⟨r, by simp [verifyDocument, hrp], hr.1, hr.2.1, hr.2.2, ?_⟩
      rw [hr.2.2]
      norm_num

def c8Env : PipelineEnv :=
  { c6Env with sessionId := "sess-c8", targetFiles := ["t.txt"] }

theorem zero_claims_report_witness :
    ∃ r, verifyDocument c8Env = { path := reportPath c8Env, writes := [(reportPath c8Env, .report r)] } ∧
      r.blocks = [] ∧
      r.performance.claims_processed = 0 ∧
      r.performance.avg_time_per_claim = round2 (c8Env.elapsed / ((max 0 1 : Nat) : ℚ)) ∧
      r.performance.avg_time_per_claim = round2 c8Env.elapsed :=
  zero_claims_report c8Env "t.txt" [] rfl rfl

def c3Claim : RawClaim :=
  { claim_id := "claim-1"
    claim_text := "Throughput is 500 req/s"
    target_locator := { page := 1, span := "sec-1" }
    category := "Performance" }

def c3Env : PipelineEnv :=
  { c6Env with
    sessionId := "sess-c3"
    targetFiles := ["t.txt"]
    extractor := .ok [c3Claim]
    judge := fun _ =>
      .ok [("verdict", .jObj []), ("confidence", .jInt 50), ("rationale", .jStr "nested")] }

/-- C3 (code bug): when the judgment stage returns a non-scalar (dict)
verdict, the run never reaches the dict-coercion of orchestrator.py line
297 — the verdict-colour dict lookup at lines 272-277 hashes the verdict
first and raises `TypeError` on the unhashable value, aborting the whole
run to the error report. The final conjunct evaluates the assembly step in
isolation, showing the coercion the code intends (and the claim/spec
describe) at the same input: it would map the dict verdict to NOT_FOUND,
but it is unreachable. -/
theorem nonscalar_verdict_aborts_run :
    (verifyDocument c3Env).path = errorPath c3Env ∧
    runReports (verifyDocument c3Env) = [] ∧
    runErrors (verifyDocument c3Env) =
      [{ document_id := "sess-c3", error := "TypeError: unhashable type",
         timestamp := "2026-01-01T00:00:00" }] ∧
    (assembleVClaim c3Claim
      [("verdict", .jObj []), ("confidence", .jInt 50), ("rationale", .jStr "nested")]
      [] 50).verdict = .jStr "NOT_FOUND" := by
  exact ⟨rfl, rfl, rfl, rfl⟩

end SV
